import Mathlib

/-!
Verification of the PWM LED controller (two Rust backends:
`device_driver.rs` and `sysfs.rs`).

The mapping function `map_speed_to_duty_cycles` computes with `f64`
arithmetic.  We embed `f64` values as exact rationals and model every
floating-point operation by the IEEE-754 round-to-nearest-even rounding
`rnd : ℚ → ℚ` applied to the exact rational result; all values that occur
in the program are normal doubles, far from overflow and underflow, so
this model is exact for every operation the program performs.

All rational arithmetic below is phrased through `mkRat`, `Rat.divInt`
and the `num`/`den` projections so that every definition evaluates by
kernel reduction (`Rat.add`/`Rat.mul`/`Rat.inv` are irreducible).
-/

/-- Boolean strict comparison of rationals by cross-multiplication
(denominators are positive). -/
def qltb (a b : ℚ) : Bool := decide (a.num * (b.den : ℤ) < b.num * (a.den : ℤ))

/-- Boolean non-strict comparison of rationals by cross-multiplication. -/
def qleb (a b : ℚ) : Bool := decide (a.num * (b.den : ℤ) ≤ b.num * (a.den : ℤ))

/-- Exact product of two rationals. -/
def qmul (a b : ℚ) : ℚ := mkRat (a.num * b.num) (a.den * b.den)

/-- Exact difference of two rationals. -/
def qsub (a b : ℚ) : ℚ := mkRat (a.num * (b.den : ℤ) - b.num * (a.den : ℤ)) (a.den * b.den)

/-- Exact quotient of two rationals. -/
def qdiv (a b : ℚ) : ℚ := Rat.divInt (a.num * (b.den : ℤ)) ((a.den : ℤ) * b.num)

/-- A rational from an integer. -/
def qofInt (m : ℤ) : ℚ := mkRat m 1

/-- Negation of a rational. -/
def qneg (a : ℚ) : ℚ := mkRat (-a.num) a.den

/-- Integer powers of two as rationals (`Nat.pow` is kernel-accelerated). -/
def pow2 : ℤ → ℚ
  | Int.ofNat n => mkRat ((2 ^ n : ℕ) : ℤ) 1
  | Int.negSucc n => mkRat 1 (2 ^ (n + 1))

/-- Floor of a rational as an integer, via floor division of numerator by denominator. -/
def ratFloor (q : ℚ) : ℤ := q.num.fdiv (q.den : ℤ)

/-- Fuel-bounded search: for `1 ≤ q`, the largest `e` with `2 ^ e ≤ q`. -/
def ilogUp : ℕ → ℚ → ℤ
  | 0, _ => 0
  | fuel + 1, q => if qltb q (qofInt 2) then 0 else ilogUp fuel (qdiv q (qofInt 2)) + 1

/-- Fuel-bounded search: for `0 < q < 1`, the largest `e` with `2 ^ e ≤ q` (negative). -/
def ilogDown : ℕ → ℚ → ℤ
  | 0, _ => 0
  | fuel + 1, q => if qleb (qofInt 1) q then 0 else ilogDown fuel (qmul (qofInt 2) q) - 1

/-- Binade exponent of a positive rational: the `e` with `2 ^ e ≤ q < 2 ^ (e+1)`.
The fuel 1100 covers the whole double-precision exponent range. -/
def ilog2q (q : ℚ) : ℤ := if qleb (qofInt 1) q then ilogUp 1100 q else ilogDown 1100 q

/-- Round a positive rational to the nearest double (53-bit significand),
ties to even. -/
def rndPos (q : ℚ) : ℚ :=
  let e := ilog2q q
  let scaled := qmul q (pow2 (52 - e))
  let fl := ratFloor scaled
  let fr := qsub scaled (qofInt fl)
  let half : ℚ := mkRat 1 2
  let m := if qltb fr half then fl
    else if qltb half fr then fl + 1
    else if fl % 2 = 0 then fl else fl + 1
  qmul (qofInt m) (pow2 (e - 52))

/-- IEEE-754 double rounding, round to nearest, ties to even. -/
def rnd (q : ℚ) : ℚ :=
  if q.num = 0 then 0 else if 0 < q.num then rndPos q else qneg (rndPos (qneg q))

/-- Double multiplication: round the exact product. -/
def fmul (a b : ℚ) : ℚ := rnd (qmul a b)

/-- Double subtraction: round the exact difference. -/
def fsub (a b : ℚ) : ℚ := rnd (qsub a b)

/-- Double division: round the exact quotient. -/
def fdiv (a b : ℚ) : ℚ := rnd (qdiv a b)

/-- The double nearest to the Rust literal `0.33`. -/
def c033 : ℚ := rnd (mkRat 33 100)

/-- The double nearest to the Rust literal `0.66`. -/
def c066 : ℚ := rnd (mkRat 66 100)

/-- Rust `as u32` on an `f64`: truncation toward zero, saturating at the
ends of the `u32` range (negative values go to 0). -/
def rustAsU32 (q : ℚ) : ℕ := min (ratFloor q).toNat (2 ^ 32 - 1)

namespace DeviceDriver

/-- `const MAX_SPEED: u64 = 10` from `device_driver.rs`. -/
def MAX_SPEED : ℕ := 10

/-- `const MIN_SPEED: u64 = 1` from `device_driver.rs`. -/
def MIN_SPEED : ℕ := 1

/-- `fn map_speed_to_duty_cycles(speed: u64) -> (u32, u32, u32)` from
`device_driver.rs` (lines 73-110).  `u64` is modelled as `ℕ`: in the
interpolation branch `1 < speed < 10`, so the subtraction cannot wrap;
the `as f64` conversions of `position ∈ [1, 8]` and `range = 9` are exact
(`rnd` is applied to them as the cast does, and is the identity there). -/
def map_speed_to_duty_cycles (speed : ℕ) : ℕ × ℕ × ℕ :=
  if speed ≤ MIN_SPEED then (10, 0, 0)
  else if MAX_SPEED ≤ speed then (100, 100, 100)
  else
    let range : ℕ := MAX_SPEED - MIN_SPEED
    let position : ℕ := speed - MIN_SPEED
    let percentage : ℚ := fdiv (rnd (qofInt position)) (rnd (qofInt range))
    let led1 : ℕ := 10 + rustAsU32 (fmul (qofInt 90) percentage)
    let led2 : ℕ :=
      if qltb c033 percentage then rustAsU32 (fmul (fsub percentage c033) (qofInt 150)) else 0
    let led3 : ℕ :=
      if qltb c066 percentage then rustAsU32 (fmul (fsub percentage c066) (qofInt 300)) else 0
    (led1, min led2 100, min led3 100)

end DeviceDriver

namespace Sysfs

/-- `const MAX_SPEED: u64 = 10` from `sysfs.rs`. -/
def MAX_SPEED : ℕ := 10

/-- `const MIN_SPEED: u64 = 1` from `sysfs.rs`. -/
def MIN_SPEED : ℕ := 1

/-- `fn map_speed_to_duty_cycles(speed: u64) -> (u32, u32, u32)` from
`sysfs.rs` (lines 72-109); the function body is character-for-character the
same as the one in `device_driver.rs` and is embedded the same way. -/
def map_speed_to_duty_cycles (speed : ℕ) : ℕ × ℕ × ℕ :=
  if speed ≤ MIN_SPEED then (10, 0, 0)
  else if MAX_SPEED ≤ speed then (100, 100, 100)
  else
    let range : ℕ := MAX_SPEED - MIN_SPEED
    let position : ℕ := speed - MIN_SPEED
    let percentage : ℚ := fdiv (rnd (qofInt position)) (rnd (qofInt range))
    let led1 : ℕ := 10 + rustAsU32 (fmul (qofInt 90) percentage)
    let led2 : ℕ :=
      if qltb c033 percentage then rustAsU32 (fmul (fsub percentage c033) (qofInt 150)) else 0
    let led3 : ℕ :=
      if qltb c066 percentage then rustAsU32 (fmul (fsub percentage c066) (qofInt 300)) else 0
    (led1, min led2 100, min led3 100)

end Sysfs

/-!
String-processing layer.  File contents are modelled as `List Char`.
The helpers below model the Rust standard-library operations the two
`read_speed` functions use (`str::split`, `str::trim`, `u64::from_str`),
restricted to ASCII whitespace (the inputs of interest are ASCII).
-/

/-- Whitespace test used by `trim` / whitespace splitting (ASCII subset of
Rust `char::is_whitespace`). -/
def isWsChar (c : Char) : Bool := c == ' ' || c == '\t' || c == '\n' || c == '\r'

/-- Rust `str::trim`: drop whitespace from both ends. -/
def rustTrim (l : List Char) : List Char :=
  ((l.dropWhile isWsChar).reverse.dropWhile isWsChar).reverse

/-- Splitting accumulator: cut the list at every character satisfying `p`.
Like Rust `str::split`, adjacent separators and separators at the ends
produce empty parts, and the result is always non-empty. -/
def splitByAux (p : Char → Bool) : List Char → List Char → List (List Char)
  | [], acc => [acc.reverse]
  | x :: xs, acc =>
    if p x then acc.reverse :: splitByAux p xs [] else splitByAux p xs (x :: acc)

/-- Rust `str::split(c)` on a single separator character. -/
def splitOnChar (c : Char) (l : List Char) : List (List Char) :=
  splitByAux (fun x => x == c) l []

/-- Rust `u64::from_str`: an optional leading `+`, then one or more ASCII
digits, value below `2 ^ 64`; anything else is a parse error (`none`). -/
def parseU64 (l : List Char) : Option ℕ :=
  let digits := match l with
    | '+' :: rest => rest
    | _ => l
  if digits.isEmpty then none
  else if digits.all Char.isDigit then
    let v := digits.foldl (fun a c => a * 10 + (c.toNat - 48)) 0
    if v < 2 ^ 64 then some v else none
  else none

namespace DeviceDriver

/-- Content-to-speed computation inside `fn read_speed` of
`device_driver.rs` (lines 46-54): split the buffer on `':'`; with at least
two parts, take `parts[1]`, trim it, split on the space character, take the
first piece (`.next().unwrap_or("0")`), and parse it as `u64` with
`unwrap_or(0)`; otherwise the speed is `0`. -/
def parse_speed_from_content (content : List Char) : ℕ :=
  let parts := splitOnChar ':' content
  if 2 ≤ parts.length then
    let speed_str := (splitOnChar ' ' (rustTrim (parts.getD 1 []))).headD ['0']
    (parseU64 speed_str).getD 0
  else 0

/-- `fn read_speed` of `device_driver.rs` viewed as a function of the text
content it read (open/read errors happen before this point and are not part
of the content-processing path).  Both exits of the source return `Ok`. -/
def read_speed_given_content (content : List Char) : Except Unit ℕ :=
  let parts := splitOnChar ':' content
  if 2 ≤ parts.length then
    let speed_str := (splitOnChar ' ' (rustTrim (parts.getD 1 []))).headD ['0']
    Except.ok ((parseU64 speed_str).getD 0)
  else
    Except.ok 0

end DeviceDriver

namespace Sysfs

/-- Content-to-speed computation inside `fn read_speed` of `sysfs.rs`
(line 49): `buffer.trim().parse::<u64>().unwrap_or(0)`. -/
def parse_speed_from_content (content : List Char) : ℕ :=
  (parseU64 (rustTrim content)).getD 0

/-- `fn read_speed` of `sysfs.rs` viewed as a function of the text content
it read; the single exit of the source returns `Ok`. -/
def read_speed_given_content (content : List Char) : Except Unit ℕ :=
  Except.ok ((parseU64 (rustTrim content)).getD 0)

/-- Contents of the three sysfs attribute files written by
`set_led_duty_cycles` of `sysfs.rs`. -/
structure SysfsFiles where
  led1_duty : String
  led2_duty : String
  led3_duty : String
deriving DecidableEq

/-- `fn set_led_duty_cycles` of `sysfs.rs` (lines 54-68) as a state
transformer on the three files.  `fail i = true` means the open/write of
the `i`-th path fails at the OS boundary; the function opens and writes
`led1_duty`, then `led2_duty`, then `led3_duty`, returning the first error
via `?` with the earlier writes left in place. -/
def set_led_duty_cycles (fail : Fin 3 → Bool) (led1 led2 led3 : ℕ) (s : SysfsFiles) :
    Except Unit Unit × SysfsFiles :=
  if fail 0 then (Except.error (), s)
  else
    let s1 : SysfsFiles := { s with led1_duty := Nat.repr led1 }
    if fail 1 then (Except.error (), s1)
    else
      let s2 : SysfsFiles := { s1 with led2_duty := Nat.repr led2 }
      if fail 2 then (Except.error (), s2)
      else (Except.ok (), { s2 with led3_duty := Nat.repr led3 })

end Sysfs

/-- Modelled from the spec: the read algorithm exactly as claim C4 words
it — the content is split on a colon "into at most two parts"; with at
least two parts, the second part is split on whitespace and its first
token is parsed, defaulting to 0 on failure.  This definition follows the
claim's words (not the source) so the two can be compared. -/
def claimed_parse_speed (content : List Char) : ℕ :=
  let pre := content.takeWhile (fun c => !(c == ':'))
  let rest := content.dropWhile (fun c => !(c == ':'))
  let parts : List (List Char) := match rest with
    | [] => [pre]
    | _ :: tail => [pre, tail]
  if 2 ≤ parts.length then
    let tokens := (splitByAux isWsChar (parts.getD 1 []) []).filter (fun t => !t.isEmpty)
    (parseU64 (tokens.headD [])).getD 0
  else 0

example : DeviceDriver.parse_speed_from_content
    ['s', 'p', 'e', 'e', 'd', ':', ' ', '3', ' ', 'p', 's'] = 3 := by decide
example : DeviceDriver.parse_speed_from_content ['g', 'a', 'r', 'b'] = 0 := by decide
example : claimed_parse_speed ['a', ':', '3', ':', 'b'] = 0 := by decide
example : DeviceDriver.parse_speed_from_content ['a', ':', '3', ':', 'b'] = 3 := by decide
example : Sysfs.parse_speed_from_content [' ', ' ', '4', '\n'] = 4 := by decide

example : fdiv (rnd (qofInt 4)) (rnd (qofInt 9)) = mkRat 2001599834386887 4503599627370496 := by
  decide
example : c033 = mkRat 5944751508129055 18014398509481984 := by decide
example : c066 = mkRat 5944751508129055 9007199254740992 := by decide
example : fmul (qofInt 90) (fdiv (rnd (qofInt 4)) (rnd (qofInt 9))) = qofInt 40 := by decide
example : DeviceDriver.map_speed_to_duty_cycles 7 = (70, 50, 1) := by decide

/-- Low-saturation branch of the device-driver mapping. -/
lemma deviceMap_low {speed : ℕ} (h : speed ≤ 1) :
    DeviceDriver.map_speed_to_duty_cycles speed = (10, 0, 0) := by
  unfold DeviceDriver.map_speed_to_duty_cycles
  rw [if_pos (show speed ≤ DeviceDriver.MIN_SPEED from h)]

/-- High-saturation branch of the device-driver mapping. -/
lemma deviceMap_high {speed : ℕ} (h : 10 ≤ speed) :
    DeviceDriver.map_speed_to_duty_cycles speed = (100, 100, 100) := by
  unfold DeviceDriver.map_speed_to_duty_cycles
  simp only [DeviceDriver.MIN_SPEED, DeviceDriver.MAX_SPEED]
  rw [if_neg (by omega), if_pos h]

/-- The two sources contain character-for-character the same mapping
function, so the embeddings coincide definitionally. -/
lemma sysfsMap_eq_deviceMap (speed : ℕ) :
    Sysfs.map_speed_to_duty_cycles speed = DeviceDriver.map_speed_to_duty_cycles speed := rfl

/-- C1: for every u64 input speed, each of the three values returned by
`map_speed_to_duty_cycles` (in both sources) is an integer in [0, 100];
the result type is `ℕ` so the lower bound is inherent, and the statement
quantifies over all naturals, covering every u64 including very large
values, without any clamping after the mapping function. -/
theorem map_speed_outputs_bounded (speed : ℕ) :
    ((DeviceDriver.map_speed_to_duty_cycles speed).1 ≤ 100 ∧
      (DeviceDriver.map_speed_to_duty_cycles speed).2.1 ≤ 100 ∧
      (DeviceDriver.map_speed_to_duty_cycles speed).2.2 ≤ 100) ∧
    ((Sysfs.map_speed_to_duty_cycles speed).1 ≤ 100 ∧
      (Sysfs.map_speed_to_duty_cycles speed).2.1 ≤ 100 ∧
      (Sysfs.map_speed_to_duty_cycles speed).2.2 ≤ 100) := by
  rw [sysfsMap_eq_deviceMap]
  by_cases h1 : speed ≤ 1
  · rw [deviceMap_low h1]; decide
  · by_cases h2 : 10 ≤ speed
    · rw [deviceMap_high h2]; decide
    · have h3 : 2 ≤ speed := by omega
      have h4 : speed ≤ 9 := by omega
      interval_cases speed <;> decide

/-- C2: for every speed ≤ MIN_SPEED (= 1) the mapping returns (10, 0, 0),
and for every speed ≥ MAX_SPEED (= 10) it returns (100, 100, 100), in both
sources; in particular at speed 1 and speed 10 themselves. -/
theorem map_speed_saturation_branches :
    (∀ speed : ℕ, speed ≤ DeviceDriver.MIN_SPEED →
      DeviceDriver.map_speed_to_duty_cycles speed = (10, 0, 0) ∧
      Sysfs.map_speed_to_duty_cycles speed = (10, 0, 0)) ∧
    (∀ speed : ℕ, DeviceDriver.MAX_SPEED ≤ speed →
      DeviceDriver.map_speed_to_duty_cycles speed = (100, 100, 100) ∧
      Sysfs.map_speed_to_duty_cycles speed = (100, 100, 100)) := by
  constructor
  · intro speed h
    have hd := deviceMap_low h
    exact ⟨hd, by rw [sysfsMap_eq_deviceMap]; exact hd⟩
  · intro speed h
    have hd := deviceMap_high h
    exact ⟨hd, by rw [sysfsMap_eq_deviceMap]; exact hd⟩

/-- C2 witness: the boundary inputs 1 and 10 themselves. -/
theorem map_speed_saturation_branches_witness :
    (DeviceDriver.map_speed_to_duty_cycles 1 = (10, 0, 0) ∧
      Sysfs.map_speed_to_duty_cycles 1 = (10, 0, 0)) ∧
    (DeviceDriver.map_speed_to_duty_cycles 10 = (100, 100, 100) ∧
      Sysfs.map_speed_to_duty_cycles 10 = (100, 100, 100)) :=
  ⟨map_speed_saturation_branches.1 1 (by decide),
    map_speed_saturation_branches.2 10 (by decide)⟩

/-- C3 counterexample: the mapping at speed 5 does not return (49, 17, 0).
With f64 arithmetic, `percentage` is the double nearest 4/9 and
`90.0 * percentage` rounds to exactly 40.0, so `d1 = 10 + 40 = 50`. -/
theorem compute_five_ne_claimed :
    DeviceDriver.map_speed_to_duty_cycles 5 ≠ (49, 17, 0) ∧
    Sysfs.map_speed_to_duty_cycles 5 ≠ (49, 17, 0) := by decide

/-- C3 amended: `map_speed_to_duty_cycles 5` returns exactly (50, 17, 0)
in both sources: `d1 = 10 + 40 = 50` because `90.0 * percentage` is
exactly 40.0 in f64, `d2 = 17` and `d3 = 0` as claimed. -/
theorem compute_five_eq :
    DeviceDriver.map_speed_to_duty_cycles 5 = (50, 17, 0) ∧
    Sysfs.map_speed_to_duty_cycles 5 = (50, 17, 0) := by decide

/-- C5: `map_speed_to_duty_cycles 9` returns exactly (90, 83, 68) in both
sources (d1 = 90, d2 = 83 with the clamp to 100 not hit, d3 = 68). -/
theorem compute_nine_eq :
    DeviceDriver.map_speed_to_duty_cycles 9 = (90, 83, 68) ∧
    Sysfs.map_speed_to_duty_cycles 9 = (90, 83, 68) := by decide

/-- C6: within the interpolation range MIN_SPEED < s1 < s2 < MAX_SPEED,
the first component of the mapping never decreases (in fact, in that range
it equals `10 * speed`). -/
theorem led1_monotone (s1 s2 : ℕ) (h1 : DeviceDriver.MIN_SPEED < s1)
    (h12 : s1 < s2) (h2 : s2 < DeviceDriver.MAX_SPEED) :
    (DeviceDriver.map_speed_to_duty_cycles s1).1 ≤
      (DeviceDriver.map_speed_to_duty_cycles s2).1 ∧
    (Sysfs.map_speed_to_duty_cycles s1).1 ≤ (Sysfs.map_speed_to_duty_cycles s2).1 := by
  simp only [DeviceDriver.MIN_SPEED, DeviceDriver.MAX_SPEED] at h1 h2
  rw [sysfsMap_eq_deviceMap, sysfsMap_eq_deviceMap]
  have d1 : ∀ s : ℕ, 2 ≤ s → s ≤ 9 → (DeviceDriver.map_speed_to_duty_cycles s).1 = 10 * s := by
    intro s hs1 hs2
    interval_cases s <;> decide
  rw [d1 s1 (by omega) (by omega), d1 s2 (by omega) (by omega)]
  exact ⟨by omega, by omega⟩

/-- C6 witness: the pair (2, 3) inside the interpolation range. -/
theorem led1_monotone_witness :
    (DeviceDriver.map_speed_to_duty_cycles 2).1 ≤
      (DeviceDriver.map_speed_to_duty_cycles 3).1 ∧
    (Sysfs.map_speed_to_duty_cycles 2).1 ≤ (Sysfs.map_speed_to_duty_cycles 3).1 :=
  led1_monotone 2 3 (by decide) (by decide) (by decide)

/-- C9: the mapping functions of the two backend sources are extensionally
equal: for every speed they return the same triple. -/
theorem maps_extensionally_equal (speed : ℕ) :
    DeviceDriver.map_speed_to_duty_cycles speed = Sysfs.map_speed_to_duty_cycles speed := rfl

/-- C10: for every input, the returned triple is ordered d1 ≥ d2 ≥ d3 in
both sources, and when LED1 is at its minimum value 10, LED2 and LED3 are
off. -/
theorem duty_cycles_staged_ordering (speed : ℕ) :
    ((DeviceDriver.map_speed_to_duty_cycles speed).2.1 ≤
        (DeviceDriver.map_speed_to_duty_cycles speed).1 ∧
      (DeviceDriver.map_speed_to_duty_cycles speed).2.2 ≤
        (DeviceDriver.map_speed_to_duty_cycles speed).2.1) ∧
    ((Sysfs.map_speed_to_duty_cycles speed).2.1 ≤ (Sysfs.map_speed_to_duty_cycles speed).1 ∧
      (Sysfs.map_speed_to_duty_cycles speed).2.2 ≤
        (Sysfs.map_speed_to_duty_cycles speed).2.1) ∧
    ((DeviceDriver.map_speed_to_duty_cycles speed).1 = 10 →
      (DeviceDriver.map_speed_to_duty_cycles speed).2.1 = 0 ∧
      (DeviceDriver.map_speed_to_duty_cycles speed).2.2 = 0) := by
  rw [sysfsMap_eq_deviceMap]
  by_cases h1 : speed ≤ 1
  · rw [deviceMap_low h1]; decide
  · by_cases h2 : 10 ≤ speed
    · rw [deviceMap_high h2]; decide
    · have h3 : 2 ≤ speed := by omega
      have h4 : speed ≤ 9 := by omega
      interval_cases speed <;> decide

/-- C10 witness: at speed 1, LED1 is at its minimum and LED2, LED3 are off. -/
theorem duty_cycles_staged_ordering_witness :
    (DeviceDriver.map_speed_to_duty_cycles 1).2.1 = 0 ∧
    (DeviceDriver.map_speed_to_duty_cycles 1).2.2 = 0 :=
  (duty_cycles_staged_ordering 1).2.2 (by decide)

/-- C4 counterexample: the device `read_speed` does not split the content
into at most two parts.  On content `"a:3:b"` the source's full split on
every colon takes `"3"` as `parts[1]` and parses 3, while the two-part
split the claim describes would take `"3:b"`, fail to parse, and yield 0. -/
theorem device_parse_not_two_part_split :
    DeviceDriver.parse_speed_from_content ['a', ':', '3', ':', 'b'] = 3 ∧
    claimed_parse_speed ['a', ':', '3', ':', 'b'] = 0 := by decide

/-- C4 amended: the device `read_speed`, as a function of the content,
splits on every colon; with fewer than two parts it returns 0, and
otherwise it parses the first space-separated token of the trimmed part
between the first and second colon, defaulting to 0 on parse failure.
Concretely: `"speed: 3 presses/second"` yields 3, `"garbage"` yields 0,
`"x: notanumber"` yields 0, and `"a:3:b"` yields 3. -/
theorem device_parse_content_behavior :
    (∀ content : List Char, (splitOnChar ':' content).length < 2 →
      DeviceDriver.parse_speed_from_content content = 0) ∧
    DeviceDriver.parse_speed_from_content
      ['s', 'p', 'e', 'e', 'd', ':', ' ', '3', ' ', 'p', 'r', 'e', 's', 's', 'e', 's',
        '/', 's', 'e', 'c', 'o', 'n', 'd'] = 3 ∧
    DeviceDriver.parse_speed_from_content ['g', 'a', 'r', 'b', 'a', 'g', 'e'] = 0 ∧
    DeviceDriver.parse_speed_from_content
      ['x', ':', ' ', 'n', 'o', 't', 'a', 'n', 'u', 'm', 'b', 'e', 'r'] = 0 ∧
    DeviceDriver.parse_speed_from_content ['a', ':', '3', ':', 'b'] = 3 := by
  refine ⟨?_, by decide, by decide, by decide, by decide⟩
  intro content h
  have h' : ¬ 2 ≤ (splitOnChar ':' content).length := by omega
  simp [DeviceDriver.parse_speed_from_content, h']

/-- C4 witness: a content without any colon yields speed 0. -/
theorem device_parse_content_behavior_witness :
    DeviceDriver.parse_speed_from_content ['x'] = 0 :=
  device_parse_content_behavior.1 ['x'] (by decide)

/-- C7: for both backends, once open and read succeed the read result is
`Ok` for every possible content: the device result is `Ok` of its parsed
value and the sysfs result is `Ok` of its parsed value, and whenever the
inner numeric parse fails the returned value is 0 (for sysfs: when the
trimmed buffer fails to parse; for the device: when the extracted token
fails to parse). -/
theorem read_speed_content_never_errors (content : List Char) :
    DeviceDriver.read_speed_given_content content =
        Except.ok (DeviceDriver.parse_speed_from_content content) ∧
    Sysfs.read_speed_given_content content =
        Except.ok (Sysfs.parse_speed_from_content content) ∧
    (parseU64 (rustTrim content) = none →
      Sysfs.read_speed_given_content content = Except.ok 0) ∧
    (2 ≤ (splitOnChar ':' content).length →
      parseU64 ((splitOnChar ' '
          (rustTrim ((splitOnChar ':' content).getD 1 []))).headD ['0']) = none →
      DeviceDriver.read_speed_given_content content = Except.ok 0) := by
  refine ⟨?_, rfl, ?_, ?_⟩
  · by_cases h : 2 ≤ (splitOnChar ':' content).length <;>
      simp [DeviceDriver.read_speed_given_content, DeviceDriver.parse_speed_from_content, h]
  · intro h
    simp [Sysfs.read_speed_given_content, Sysfs.parse_speed_from_content, h]
  · intro h hp
    simp only [DeviceDriver.read_speed_given_content]
    rw [if_pos h, hp]
    rfl

/-- C7 witness: the unparseable content "a" gives `Ok 0` on the sysfs
backend. -/
theorem read_speed_content_never_errors_witness :
    Sysfs.read_speed_given_content ['a'] = Except.ok 0 :=
  (read_speed_content_never_errors ['a']).2.2.1 (by decide)

/-- C8: the sysfs commit writes led1_duty, then led2_duty, then led3_duty,
sequentially and independently: if the second write fails, the error is
returned with led1 already applied and led2, led3 untouched; if the third
fails, led1 and led2 are already applied; there is no rollback.  On full
success all three files hold the written decimal values. -/
theorem sysfs_commit_sequential_no_rollback (fail : Fin 3 → Bool) (l1 l2 l3 : ℕ)
    (s : Sysfs.SysfsFiles) :
    (fail 0 = false → fail 1 = true →
      Sysfs.set_led_duty_cycles fail l1 l2 l3 s =
        (Except.error (), { s with led1_duty := Nat.repr l1 })) ∧
    (fail 0 = false → fail 1 = false → fail 2 = true →
      Sysfs.set_led_duty_cycles fail l1 l2 l3 s =
        (Except.error (),
          { s with led1_duty := Nat.repr l1, led2_duty := Nat.repr l2 })) ∧
    (fail 0 = false → fail 1 = false → fail 2 = false →
      Sysfs.set_led_duty_cycles fail l1 l2 l3 s =
        (Except.ok (),
          { led1_duty := Nat.repr l1, led2_duty := Nat.repr l2,
            led3_duty := Nat.repr l3 })) := by
  refine ⟨?_, ?_, ?_⟩
  · intro h0 h1
    simp [Sysfs.set_led_duty_cycles, h0, h1]
  · intro h0 h1 h2
    simp [Sysfs.set_led_duty_cycles, h0, h1, h2]
  · intro h0 h1 h2
    simp [Sysfs.set_led_duty_cycles, h0, h1, h2]

/-- C8 witness: with the second path failing, the commit errors, the first
file holds the new value and the other two keep their old contents. -/
theorem sysfs_commit_sequential_no_rollback_witness :
    Sysfs.set_led_duty_cycles (fun i => decide (i = 1)) 5 6 7
        (⟨"a", "b", "c"⟩ : Sysfs.SysfsFiles) =
      (Except.error (), { led1_duty := Nat.repr 5, led2_duty := "b", led3_duty := "c" }) :=
  (sysfs_commit_sequential_no_rollback (fun i => decide (i = 1)) 5 6 7
    (⟨"a", "b", "c"⟩ : Sysfs.SysfsFiles)).1 rfl rfl
